import Mathlib

/-!
Verification of the masir focus-follows-mouse engine (src/main.rs).

The engine is embedded shallowly: the OS binding layer (Win32 calls) is an
explicit oracle record `Env`, the mutable caches of `listen_for_movements`
are an explicit `EngineState`, and one iteration of the dispatch loop is the
pure function `loopIter`.  Observable side effects (syscalls the classifier
makes, raise attempts) are logged in a `StepOut` value so that claims about
"no re-query" and "no raise" can be stated directly.
-/

namespace Masir

/-- The two matching strategies of `MatchingStrategy` in main.rs. -/
inductive MatchingStrategy where
  | Contains
  | Equals
deriving Repr, DecidableEq

/-- Test for one character list being a leading segment of another, used to
implement Rust `str::contains` (substring search). -/
def leadsChars : List Char → List Char → Bool
  | [], _ => true
  | _ :: _, [] => false
  | a :: as, b :: bs => a == b && leadsChars as bs

/-- Substring occurrence over character lists (recursion on the haystack). -/
def occursChars (pat : List Char) : List Char → Bool
  | [] => leadsChars pat []
  | c :: rest => leadsChars pat (c :: rest) || occursChars pat rest

/-- Rust `str::contains`: `pat` occurs as a contiguous substring of `hay`. -/
def strContains (hay pat : String) : Bool :=
  occursChars pat.toList hay.toList

/-- Function `has_match` from main.rs. -/
def has_match (str1 str2 : String) (matching_strategy : MatchingStrategy) : Bool :=
  match matching_strategy with
  | .Equals => str1 == str2
  | .Contains => strContains str1 str2

/-- The constant `CLASS_IGNORELIST` from main.rs: the fixed class block list. -/
def CLASS_IGNORELIST : List (String × MatchingStrategy) :=
  [ ("SHELLDLL_DefView", .Equals)
  , ("Shell_TrayWnd", .Equals)
  , ("TrayNotifyWnd", .Equals)
  , ("MSTaskSwWClass", .Equals)
  , ("Windows.UI.Core.CoreWindow", .Equals)
  , ("XamlExplorerHostIslandWindow", .Equals)
  , ("ForegroundStaging", .Equals)
  , ("Flow.Launcher", .Contains)
  , ("PowerToys.PowerLauncher", .Contains) ]

/-- True when a class name matches some entry of `CLASS_IGNORELIST`. -/
def classMatchesIgnore (c : String) : Bool :=
  CLASS_IGNORELIST.any fun e => has_match c e.1 e.2

/-- Style flag `WS_EX_TOOLWINDOW` (0x00000080). -/
def WS_EX_TOOLWINDOW : Nat := 128

/-- Style flag `WS_EX_NOACTIVATE` (0x08000000). -/
def WS_EX_NOACTIVATE : Nat := 134217728

/-- Bit test behind `WINDOW_EX_STYLE.contains`: all bits of `flag` are set
in `style`. -/
def styleHasFlag (style flag : Nat) : Bool :=
  Nat.land style flag == flag

/-- The OS oracle: results of the Win32 calls the engine makes.  A `none`
result models the corresponding call failing (`Err` in main.rs).
`exStyleOf` models `GetWindowLongW(.., GWL_EXSTYLE)`, which in main.rs is
total (`get_window_ex_style` never returns a `Result`).  `readHwnds` is the
outcome of `std::fs::read_to_string` on the configured hwnds file, and
`setForegroundOk` tells whether `SetForegroundWindow` succeeds on a handle. -/
structure Env where
  windowAtCursor : Option Int
  foregroundWindow : Option Int
  rootOf : Int → Option Int
  classOf : Int → Option String
  exStyleOf : Int → Nat
  readHwnds : Option String
  setForegroundOk : Int → Bool

/-- Predicate `has_filtered_style` from main.rs. -/
def has_filtered_style (env : Env) (hwnd : Int) : Bool :=
  styleHasFlag (env.exStyleOf hwnd) WS_EX_TOOLWINDOW
    || styleHasFlag (env.exStyleOf hwnd) WS_EX_NOACTIVATE

/-- Association-list lookup, modelling `HashMap::get`. -/
def lookupA {α : Type} : List (Int × α) → Int → Option α
  | [], _ => none
  | (k, v) :: rest, q => if k = q then some v else lookupA rest q

/-- Association-list insert, modelling `HashMap::insert` (replaces). -/
def insertA {α : Type} : List (Int × α) → Int → α → List (Int × α)
  | [], k, v => [(k, v)]
  | (k', v') :: rest, k, v =>
      if k' = k then (k, v) :: rest else (k', v') :: insertA rest k v

/-- The mutable state of the dispatch loop in `listen_for_movements`:
the four caches, the generation timestamp and the drag flag. -/
structure EngineState where
  eligibility_cache : List (Int × Bool)
  class_cache : List (Int × String)
  hwnd_pair_cache : List (Int × Int)
  root_hwnd_cache : List (Int × Int)
  cache_instantiation_time : Nat
  is_mouse_down : Bool
deriving Repr, DecidableEq

/-- Observable actions performed while processing one event. -/
inductive Effect where
  | rootQuery (h : Int)
  | classQuery (h : Int)
  | styleQuery (h : Int)
  | classRules (h : Int)
  | fileRead
  | raiseCall (h : Int)
deriving Repr, DecidableEq

/-- The observable outcome of processing one event: the effect log and the
handle passed to `raise_and_focus_window`, if any. -/
structure StepOut where
  effects : List Effect
  raised : Option Int
deriving Repr, DecidableEq

/-- Outcome of an event that did nothing observable. -/
def emptyOut : StepOut := ⟨[], none⟩

/-- The events the loop reacts to (`winput` events; `other` covers every
event the `_ => {}` arm of main.rs discards). `mouseButton true` is
`Action::Press`, `mouseButton false` is `Action::Release`. -/
inductive InputEvent where
  | mouseMoveRelative
  | mouseButton (press : Bool)
  | other
deriving Repr, DecidableEq

/-- Root-handle resolution with the `root_hwnd_cache` (main.rs lines
170-185): cache hit is used as is; on a miss `get_ancestor(.., GA_ROOT)` is
called and a success is inserted into the cache. Returns the updated cache,
the resolved root (if any) and the syscall log. -/
def resolveRoot (env : Env) (cache : List (Int × Int)) (hwnd : Int) :
    List (Int × Int) × Option Int × List Effect :=
  match lookupA cache hwnd with
  | some root => (cache, some root, [])
  | none =>
      match env.rootOf hwnd with
      | some root => (insertA cache hwnd root, some root, [Effect.rootQuery hwnd])
      | none => (cache, none, [Effect.rootQuery hwnd])

/-- Class-name resolution for the cursor-root and foreground handles with
the `class_cache` (main.rs lines 201-233): both cache lookups happen first,
then each miss triggers `real_window_class_w`, whose success is cached.
Returns the updated cache, both resolved classes and the syscall log. -/
def resolveClasses (env : Env) (cache : List (Int × String)) (root fg : Int) :
    List (Int × String) × Option String × Option String × List Effect :=
  let crC0 := lookupA cache root
  let fgC0 := lookupA cache fg
  let step1 : List (Int × String) × Option String × List Effect :=
    match crC0 with
    | some cls => (cache, some cls, [])
    | none =>
        match env.classOf root with
        | some cls => (insertA cache root cls, some cls, [Effect.classQuery root])
        | none => (cache, none, [Effect.classQuery root])
  let step2 : List (Int × String) × Option String × List Effect :=
    match fgC0 with
    | some cls => (step1.1, some cls, [])
    | none =>
        match env.classOf fg with
        | some cls => (insertA step1.1 fg cls, some cls, [Effect.classQuery fg])
        | none => (step1.1, none, [Effect.classQuery fg])
  (step2.1, step1.2.1, step2.2.1, step1.2.2 ++ step2.2.2)

/-- The `CLASS_IGNORELIST` loop of main.rs (lines 274-282 / 309-317):
each entry clears the respective eligibility flag when it matches. -/
def applyIgnoreList (crClass fgClass : String) (p : Bool × Bool) : Bool × Bool :=
  CLASS_IGNORELIST.foldl
    (fun q e =>
      (q.1 && !(has_match crClass e.1 e.2), q.2 && !(has_match fgClass e.1 e.2)))
    p

/-- The ignore-list loop runs only when both class names resolved
(`if let (Some(..), Some(..))`); log it as an effect per handle. -/
def ruleEffects (crClass fgClass : Option String) (root fg : Int) : List Effect :=
  match crClass, fgClass with
  | some _, some _ => [Effect.classRules root, Effect.classRules fg]
  | _, _ => []

/-- External-source eligibility (main.rs lines 261-283): start from `true`,
AND with decimal-substring containment in the file contents, then run the
ignore-list loop when both classes are known. -/
def externalEligibilities (raw : String) (root fg : Int)
    (crClass fgClass : Option String) : Bool × Bool :=
  let crE := true && strContains raw (toString root)
  let fgE := true && strContains raw (toString fg)
  match crClass, fgClass with
  | some c, some f => applyIgnoreList c f (crE, fgE)
  | _, _ => (crE, fgE)

/-- Heuristic eligibility (main.rs lines 298-318): start from `true`, AND
with the absence of filtered window styles, then run the ignore-list loop
when both classes are known. -/
def heuristicEligibilities (env : Env) (root fg : Int)
    (crClass fgClass : Option String) : Bool × Bool :=
  let crE := true && !(has_filtered_style env root)
  let fgE := true && !(has_filtered_style env fg)
  match crClass, fgClass with
  | some c, some f => applyIgnoreList c f (crE, fgE)
  | _, _ => (crE, fgE)

/-- The tail of the movement handler: invoke `raise_and_focus_window` on the
cursor-root handle when `should_raise` is set (main.rs lines 326-337).  The
raise outcome is only logged in main.rs, so the state is returned as is. -/
def finishRaise (st : EngineState) (root : Int) (should_raise : Bool)
    (effs : List Effect) : EngineState × StepOut :=
  if should_raise then (st, ⟨effs ++ [Effect.raiseCall root], some root⟩)
  else (st, ⟨effs, none⟩)

/-- The eligibility stage (main.rs lines 247-324): when both handles have
cached verdicts, raise iff both are `true`; otherwise run the external-file
classifier when a hwnds file is configured, else the heuristic classifier. -/
def classify (env : Env) (hwndsConfigured : Bool) (st : EngineState)
    (root fg : Int) (crClass fgClass : Option String) (effs : List Effect) :
    EngineState × StepOut :=
  match lookupA st.eligibility_cache root, lookupA st.eligibility_cache fg with
  | some crE, some fgE => finishRaise st root (crE && fgE) effs
  | _, _ =>
    if hwndsConfigured then
      match env.readHwnds with
      | some raw =>
          let p := externalEligibilities raw root fg crClass fgClass
          let st1 :=
            if p.1 then
              { st with eligibility_cache := insertA st.eligibility_cache root true }
            else st
          let st2 :=
            if p.2 then
              { st1 with eligibility_cache := insertA st1.eligibility_cache fg true }
            else st1
          finishRaise st2 root (p.1 && p.2)
            (effs ++ [Effect.fileRead] ++ ruleEffects crClass fgClass root fg)
      | none => (st, ⟨effs ++ [Effect.fileRead], none⟩)
    else
      let p := heuristicEligibilities env root fg crClass fgClass
      let st1 :=
        { st with eligibility_cache :=
            insertA (insertA st.eligibility_cache root p.1) fg p.2 }
      finishRaise st1 root (p.1 && p.2)
        (effs ++ [Effect.styleQuery root, Effect.styleQuery fg]
              ++ ruleEffects crClass fgClass root fg)

/-- The movement handler after the cursor root is known (main.rs lines
187-338): identity short-circuit, pair-cache short-circuit, class
resolution, the Steam pairing fix, then classification and raise. -/
def afterRoot (env : Env) (hwndsConfigured : Bool) (st : EngineState)
    (fg root : Int) (effs : List Effect) : EngineState × StepOut :=
  if root = fg then (st, ⟨effs, none⟩)
  else if lookupA st.hwnd_pair_cache root = some fg then (st, ⟨effs, none⟩)
  else
    let rc := resolveClasses env st.class_cache root fg
    let st1 := { st with class_cache := rc.1 }
    let crClass := rc.2.1
    let fgClass := rc.2.2.1
    let effs1 := effs ++ rc.2.2.2
    if crClass = some "Chrome_RenderWidgetHostHWND" ∧ fgClass = some "SDL_app" then
      ({ st1 with hwnd_pair_cache := insertA st1.hwnd_pair_cache root fg },
       ⟨effs1, none⟩)
    else
      classify env hwndsConfigured st1 root fg crClass fgClass effs1

/-- The `Event::MouseMoveRelative` arm of main.rs (lines 157-340): drag
guard, resolution of the cursor and foreground handles (dropping the event
when either query fails), identity short-circuit on the raw handles, root
resolution, then `afterRoot`. -/
def processMove (env : Env) (hwndsConfigured : Bool) (st : EngineState) :
    EngineState × StepOut :=
  if st.is_mouse_down then (st, emptyOut)
  else
    match env.windowAtCursor, env.foregroundWindow with
    | some cursor, some fg =>
        if cursor = fg then (st, emptyOut)
        else
          let rr := resolveRoot env st.root_hwnd_cache cursor
          let st1 := { st with root_hwnd_cache := rr.1 }
          match rr.2.1 with
          | none => (st1, ⟨rr.2.2, none⟩)
          | some root => afterRoot env hwndsConfigured st1 fg root rr.2.2
    | _, _ => (st, emptyOut)

/-- One dispatch of `receiver.next_event()` (main.rs lines 156-346):
movement events run `processMove`, button events only update the drag flag,
anything else is ignored. -/
def processEvent (env : Env) (hwndsConfigured : Bool) (st : EngineState) :
    InputEvent → EngineState × StepOut
  | .mouseMoveRelative => processMove env hwndsConfigured st
  | .mouseButton press => ({ st with is_mouse_down := press }, emptyOut)
  | .other => (st, emptyOut)

/-- Constant `max_cache_age` from main.rs: `Duration::from_secs(60) * 10`,
in seconds. -/
def max_cache_age : Nat := 600

/-- The cache-expiry check at the top of every loop iteration (main.rs lines
144-154): when the generation is older than `max_cache_age`, all four caches
are replaced by fresh empty maps and the timestamp is reset to `now`. -/
def clearCachesIfExpired (now : Nat) (st : EngineState) : EngineState :=
  if now - st.cache_instantiation_time > max_cache_age then
    { eligibility_cache := []
      class_cache := []
      hwnd_pair_cache := []
      root_hwnd_cache := []
      cache_instantiation_time := now
      is_mouse_down := st.is_mouse_down }
  else st

/-- One full iteration of the dispatch loop: the expiry check, then the
event dispatch. `now` is the injected clock reading. -/
def loopIter (env : Env) (hwndsConfigured : Bool) (now : Nat)
    (st : EngineState) (ev : InputEvent) : EngineState × StepOut :=
  processEvent env hwndsConfigured (clearCachesIfExpired now st) ev

/-- The steps `raise_and_focus_window` (main.rs lines 463-479) issues
against the OS, in order. `setTopmostNoMove` is listed for completeness of
the raise vocabulary (a `SetWindowPos`-style Z-order request); main.rs
issues only `sendInputSelf` and `setForeground`. -/
inductive RaiseStep where
  | sendInputSelf
  | setTopmostNoMove (h : Int)
  | setForeground (h : Int)
deriving Repr, DecidableEq

/-- Function `raise_and_focus_window` from main.rs: send a self-directed
no-op input event (return value ignored), then `SetForegroundWindow`; the
call sequence is returned together with the success of the foreground
transfer, which is the function's result (`.ok().process()`). -/
def raise_and_focus_window (env : Env) (hwnd : Int) : List RaiseStep × Bool :=
  ([RaiseStep.sendInputSelf, RaiseStep.setForeground hwnd],
   env.setForegroundOk hwnd)

/-! ### Concrete environments and states used by witnesses and
counterexamples -/

/-- Heuristic mode, no drag: two distinct top-level windows with unknown
classes and clean styles. -/
def envHeuristicUnknown : Env :=
  { windowAtCursor := some 11
    foregroundWindow := some 22
    rootOf := fun h => if h = 11 then some 11 else none
    classOf := fun h =>
      if h = 11 then some "UnknownClassA"
      else if h = 22 then some "UnknownClassB" else none
    exStyleOf := fun _ => 0
    readHwnds := none
    setForegroundOk := fun _ => true }

/-- The engine state at start: empty caches, drag flag clear. -/
def engineStart : EngineState := ⟨[], [], [], [], 0, false⟩

/-- A state in the middle of a drag (button held). -/
def stDragging : EngineState := ⟨[], [], [], [], 0, true⟩

/-- A populated state whose generation is stale relative to clock 1000. -/
def stStale : EngineState := ⟨[(1, true)], [(1, "A")], [(1, 2)], [(1, 1)], 0, false⟩

/-- An environment whose window-at-cursor query fails. -/
def envNoCursor : Env :=
  { envHeuristicUnknown with windowAtCursor := none }

/-- A state with memoized verdicts for both handles 5 and 7. -/
def stBothCached : EngineState := ⟨[(5, true), (7, false)], [], [], [], 0, false⟩

/-- Cursor window 1 (its own root), foreground window 2, classes unknown. -/
def envMemoized : Env :=
  { windowAtCursor := some 1
    foregroundWindow := some 2
    rootOf := fun h => if h = 1 then some 1 else none
    classOf := fun _ => none
    exStyleOf := fun _ => 0
    readHwnds := none
    setForegroundOk := fun _ => true }

/-- Same as `envMemoized` but with a readable hwnds file configured. -/
def envMemoizedExternal : Env := { envMemoized with readHwnds := some "1 2" }

/-- A state in which handle 1 is memoized eligible but handle 2 is unknown. -/
def stMemoized : EngineState := ⟨[(1, true)], [], [], [], 0, false⟩

/-- Cursor window 7 (its own root), foreground window 8. -/
def envPair : Env :=
  { windowAtCursor := some 7
    foregroundWindow := some 8
    rootOf := fun h => if h = 7 then some 7 else none
    classOf := fun _ => none
    exStyleOf := fun _ => 0
    readHwnds := none
    setForegroundOk := fun _ => true }

/-- A state in which the pair (7, 8) has been learned. -/
def stPaired : EngineState := ⟨[], [], [(7, 8)], [], 0, false⟩

/-- Cursor window 9 is a child whose root 10 is the foreground window. -/
def envChild : Env :=
  { windowAtCursor := some 9
    foregroundWindow := some 10
    rootOf := fun h => if h = 9 then some 10 else none
    classOf := fun _ => none
    exStyleOf := fun _ => 0
    readHwnds := none
    setForegroundOk := fun _ => true }

/-- Cursor window 3 resolves to root 5 with a block-listed class; the
foreground window 4's class query fails. -/
def envBlockedClassUnresolved : Env :=
  { windowAtCursor := some 3
    foregroundWindow := some 4
    rootOf := fun h => if h = 3 then some 5 else none
    classOf := fun h => if h = 5 then some "Shell_TrayWnd" else none
    exStyleOf := fun _ => 0
    readHwnds := none
    setForegroundOk := fun _ => true }

/-! ### Helper lemmas -/

theorem lookupA_insertA {α : Type} (m : List (Int × α)) (k q : Int) (v : α) :
    lookupA (insertA m k v) q = if k = q then some v else lookupA m q := by
  induction m with
  | nil => simp [insertA, lookupA]
  | cons p t ih =>
      obtain ⟨pk, pv⟩ := p
      by_cases hk : pk = k
      · subst hk
        by_cases hq : pk = q <;> simp [insertA, lookupA, hq]
      · by_cases hq : pk = q
        · subst hq
          have : ¬ k = pk := fun h => hk h.symm
          simp [insertA, lookupA, hk, this]
        · simp [insertA, lookupA, hk, hq, ih]

theorem ignore_foldl (L : List (String × MatchingStrategy)) (c f : String)
    (p : Bool × Bool) :
    L.foldl
      (fun q e => (q.1 && !(has_match c e.1 e.2), q.2 && !(has_match f e.1 e.2))) p
      = (p.1 && !(L.any fun e => has_match c e.1 e.2),
         p.2 && !(L.any fun e => has_match f e.1 e.2)) := by
  induction L generalizing p with
  | nil => simp
  | cons e t ih => simp [List.foldl_cons, List.any_cons, ih, Bool.not_or, Bool.and_assoc]

theorem applyIgnoreList_eq (c f : String) (p : Bool × Bool) :
    applyIgnoreList c f p
      = (p.1 && !(classMatchesIgnore c), p.2 && !(classMatchesIgnore f)) := by
  unfold applyIgnoreList classMatchesIgnore
  exact ignore_foldl CLASS_IGNORELIST c f p

/-! ### Claims -/

/-- C1 (counterexample): in heuristic mode, handles 11 and 22 carry classes
matching no ignore-list entry and styles with neither filtered flag, yet the
engine classifies the cursor-root handle as eligible and raises it — the
default is eligible, not ineligible. -/
theorem unknown_window_raised_counterexample :
    classMatchesIgnore "UnknownClassA" = false ∧
    classMatchesIgnore "UnknownClassB" = false ∧
    has_filtered_style envHeuristicUnknown 11 = false ∧
    has_filtered_style envHeuristicUnknown 22 = false ∧
    (processMove envHeuristicUnknown false engineStart).2.raised = some 11 ∧
    lookupA (processMove envHeuristicUnknown false engineStart).1.eligibility_cache 11
      = some true := by
  decide

/-- C1 (amended): in heuristic mode a handle whose class matches no
ignore-list entry (and does not trigger the Steam pairing rule) and whose
extended style sets neither filtered flag is classified as ELIGIBLE by
default — the code fails open, so an unknown window IS raised when the
foreground handle is likewise eligible. -/
theorem heuristic_default_is_eligible
    (env : Env) (st : EngineState) (c g r : Int) (rc : List (Int × Int))
    (es ee : List Effect) (cc : List (Int × String)) (crCls fgCls : String)
    (hmouse : st.is_mouse_down = false)
    (hcur : env.windowAtCursor = some c)
    (hfg : env.foregroundWindow = some g)
    (hcg : c ≠ g)
    (hroot : resolveRoot env st.root_hwnd_cache c = (rc, some r, es))
    (hrg : r ≠ g)
    (hpair : ¬ lookupA st.hwnd_pair_cache r = some g)
    (hcls : resolveClasses env st.class_cache r g = (cc, some crCls, some fgCls, ee))
    (hsteam : ¬(crCls = "Chrome_RenderWidgetHostHWND" ∧ fgCls = "SDL_app"))
    (hcr : classMatchesIgnore crCls = false)
    (hfgc : classMatchesIgnore fgCls = false)
    (helig : lookupA st.eligibility_cache r = none)
    (hstyR : has_filtered_style env r = false)
    (hstyG : has_filtered_style env g = false) :
    (processMove env false st).2.raised = some r ∧
    lookupA (processMove env false st).1.eligibility_cache r = some true ∧
    lookupA (processMove env false st).1.eligibility_cache g = some true := by
  have hps : heuristicEligibilities env r g (some crCls) (some fgCls) = (true, true) := by
    simp [heuristicEligibilities, applyIgnoreList_eq, hcr, hfgc, hstyR, hstyG]
  simp only [processMove, hmouse, Bool.false_eq_true, if_false, hcur, hfg, hroot,
    afterRoot, classify, hcls, hps]
  rw [if_neg hcg, if_neg hrg, if_neg hpair,
    if_neg (show ¬(some crCls = some "Chrome_RenderWidgetHostHWND" ∧
      some fgCls = some "SDL_app") by simpa using hsteam), helig]
  simp [finishRaise, lookupA_insertA, Ne.symm hrg]

theorem heuristic_default_is_eligible_witness :
    (processMove envHeuristicUnknown false engineStart).2.raised = some 11 ∧
    lookupA (processMove envHeuristicUnknown false engineStart).1.eligibility_cache 11
      = some true ∧
    lookupA (processMove envHeuristicUnknown false engineStart).1.eligibility_cache 22
      = some true :=
  heuristic_default_is_eligible envHeuristicUnknown engineStart 11 22 11
    [(11, 11)] [Effect.rootQuery 11] [Effect.classQuery 11, Effect.classQuery 22]
    [(11, "UnknownClassA"), (22, "UnknownClassB")] "UnknownClassA" "UnknownClassB"
    rfl rfl rfl (by decide) (by decide) (by decide) (by decide) (by decide)
    (by decide) (by decide) (by decide) rfl (by decide) (by decide)

/-- C2 (counterexample): in external-source mode the handle 123 appears as a
substring of the file contents, yet its eligibility is false because its
class is on the ignore list — so containment is not the only condition. -/
theorem external_not_only_containment_counterexample :
    strContains "[123, 456]" (toString (123 : Int)) = true ∧
    (externalEligibilities "[123, 456]" 123 456
        (some "Shell_TrayWnd") (some "Foo")).1 = false := by
  decide

/-- C2 (amended): in external-source mode, when both class names are
resolved, a handle's eligibility is true iff its decimal representation
appears as a substring of the external file's contents AND its class matches
no entry of the class ignore list. -/
theorem external_eligibility_characterization (raw : String) (root fg : Int)
    (c f : String) :
    externalEligibilities raw root fg (some c) (some f)
      = (strContains raw (toString root) && !(classMatchesIgnore c),
         strContains raw (toString fg) && !(classMatchesIgnore f)) := by
  simp [externalEligibilities, applyIgnoreList_eq]

/-- C3 (counterexample): handle 1 is memoized eligible, but because the
foreground handle 2 has no memoized verdict, the same-generation evaluation
re-runs the classifier for handle 1 as well: in heuristic mode its style is
re-queried, and in external-source mode the file is re-read. -/
theorem memoized_true_requeried_counterexample :
    lookupA stMemoized.eligibility_cache 1 = some true ∧
    Effect.styleQuery 1 ∈ (processMove envMemoized false stMemoized).2.effects ∧
    Effect.fileRead ∈ (processMove envMemoizedExternal true stMemoized).2.effects := by
  decide

/-- C3 (amended): the classifier is skipped only when BOTH the cursor-root
and foreground handles hold memoized verdicts; in that case the evaluation
leaves every cache untouched and performs no file read, no style query and
no ignore-list evaluation — at most the raise call is issued. -/
theorem classify_skips_when_both_cached (env : Env) (cfg : Bool)
    (st : EngineState) (root fg : Int) (crC fgC : Option String)
    (effs : List Effect) (a b : Bool)
    (h1 : lookupA st.eligibility_cache root = some a)
    (h2 : lookupA st.eligibility_cache fg = some b) :
    classify env cfg st root fg crC fgC effs =
      (st, ⟨if a && b then effs ++ [Effect.raiseCall root] else effs,
            if a && b then some root else none⟩) := by
  unfold classify
  rw [h1, h2]
  unfold finishRaise
  by_cases hab : (a && b) = true
  · simp [hab]
  · simp [hab]

theorem classify_skips_when_both_cached_witness :
    classify envHeuristicUnknown false stBothCached 5 7 none none []
      = (stBothCached, ⟨[], none⟩) := by
  have := classify_skips_when_both_cached envHeuristicUnknown false stBothCached
    5 7 none none [] true false (by decide) (by decide)
  simpa using this

/-- C4: while the drag flag is set (between a button press and its release),
a movement event is dropped before any query and produces no raise; button
events only update the drag flag and never trigger classification. -/
theorem drag_gate_and_button_events (env : Env) (cfg : Bool) (st : EngineState) :
    (st.is_mouse_down = true → processEvent env cfg st .mouseMoveRelative = (st, emptyOut)) ∧
    (∀ press, processEvent env cfg st (.mouseButton press)
        = ({ st with is_mouse_down := press }, emptyOut)) := by
  constructor
  · intro h
    simp [processEvent, processMove, h]
  · intro press
    rfl

theorem drag_gate_and_button_events_witness :
    processEvent envHeuristicUnknown false stDragging .mouseMoveRelative
      = (stDragging, emptyOut) :=
  (drag_gate_and_button_events envHeuristicUnknown false stDragging).1 rfl

/-- C5: when the generation age exceeds the TTL, the per-iteration check
replaces all four caches by empty maps and resets the timestamp, and the
event of that very iteration is processed against the emptied state. -/
theorem cache_ttl_expiry_clears_all (env : Env) (cfg : Bool) (now : Nat)
    (st : EngineState) (ev : InputEvent)
    (h : now - st.cache_instantiation_time > max_cache_age) :
    clearCachesIfExpired now st =
      { eligibility_cache := [], class_cache := [], hwnd_pair_cache := []
        root_hwnd_cache := [], cache_instantiation_time := now
        is_mouse_down := st.is_mouse_down } ∧
    loopIter env cfg now st ev =
      processEvent env cfg
        { eligibility_cache := [], class_cache := [], hwnd_pair_cache := []
          root_hwnd_cache := [], cache_instantiation_time := now
          is_mouse_down := st.is_mouse_down } ev := by
  have h1 : clearCachesIfExpired now st =
      { eligibility_cache := [], class_cache := [], hwnd_pair_cache := []
        root_hwnd_cache := [], cache_instantiation_time := now
        is_mouse_down := st.is_mouse_down } := by
    unfold clearCachesIfExpired
    rw [if_pos h]
  refine ⟨h1, ?_⟩
  unfold loopIter
  rw [h1]

theorem cache_ttl_expiry_clears_all_witness :
    clearCachesIfExpired 1000 stStale = ⟨[], [], [], [], 1000, false⟩ ∧
    loopIter envHeuristicUnknown false 1000 stStale .other =
      processEvent envHeuristicUnknown false ⟨[], [], [], [], 1000, false⟩ .other := by
  have := cache_ttl_expiry_clears_all envHeuristicUnknown false 1000 stStale .other
    (by decide)
  simpa using this

/-- C6: once a pair (a, b) is in the pair cache, a movement event whose
cursor handle is a (a is a root handle recorded by the pairing rule, so its
root resolution yields a itself) and whose foreground handle is b produces
no raise, whatever the windows' classes or styles. -/
theorem pair_cache_suppresses_raise (env : Env) (cfg : Bool) (st : EngineState)
    (a b : Int) (rc : List (Int × Int)) (es : List Effect)
    (hcur : env.windowAtCursor = some a)
    (hfg : env.foregroundWindow = some b)
    (hroot : resolveRoot env st.root_hwnd_cache a = (rc, some a, es))
    (hpair : lookupA st.hwnd_pair_cache a = some b) :
    (processEvent env cfg st .mouseMoveRelative).2.raised = none := by
  by_cases hm : st.is_mouse_down
  · simp [processEvent, processMove, hm, emptyOut]
  · by_cases hab : a = b
    · simp [processEvent, processMove, hm, hcur, hfg, hab, emptyOut]
    · simp [processEvent, processMove, hm, hcur, hfg, hab, hroot, afterRoot, hpair]

theorem pair_cache_suppresses_raise_witness :
    (processEvent envPair false stPaired .mouseMoveRelative).2.raised = none :=
  pair_cache_suppresses_raise envPair false stPaired 7 8 [(7, 7)] [Effect.rootQuery 7]
    rfl rfl (by decide) (by decide)

/-- C7 (counterexample): `raise_and_focus_window` issues no Z-order request:
its call sequence is exactly the self-directed input followed by the
foreground transfer, so the claimed step (b) is absent. -/
theorem raise_no_zorder_counterexample :
    (raise_and_focus_window envHeuristicUnknown 5).1
      = [RaiseStep.sendInputSelf, RaiseStep.setForeground 5] ∧
    ¬ RaiseStep.setTopmostNoMove 5 ∈ (raise_and_focus_window envHeuristicUnknown 5).1 := by
  decide

/-- C7 (amended): `raise_and_focus_window` performs, in order, (a) a
self-directed no-op input injection whose outcome is ignored and (c) a
foreground/focus transfer; there is no Z-order step.  The operation returns
an error exactly when the foreground transfer fails, and the engine state is
never mutated by the raise stage. -/
theorem raise_protocol (env : Env) (hwnd : Int) :
    (raise_and_focus_window env hwnd).1
      = [RaiseStep.sendInputSelf, RaiseStep.setForeground hwnd] ∧
    (raise_and_focus_window env hwnd).2 = env.setForegroundOk hwnd ∧
    ∀ (st : EngineState) (root : Int) (b : Bool) (effs : List Effect),
      (finishRaise st root b effs).1 = st := by
  refine ⟨rfl, rfl, ?_⟩
  intro st root b effs
  unfold finishRaise
  split <;> rfl

/-- C8: when the window-at-cursor query or the foreground-window query
fails, the movement event is dropped with the state (all caches included)
unchanged and no raise attempted. -/
theorem query_failure_drops_event (env : Env) (cfg : Bool) (st : EngineState)
    (h : env.windowAtCursor = none ∨ env.foregroundWindow = none) :
    processEvent env cfg st .mouseMoveRelative = (st, emptyOut) := by
  by_cases hm : st.is_mouse_down
  · simp [processEvent, processMove, hm]
  · rcases h with h | h
    · simp [processEvent, processMove, hm, h]
    · simp only [processEvent, processMove, hm, Bool.false_eq_true, if_false]
      rw [h]
      cases hy : env.windowAtCursor <;> simp

theorem query_failure_drops_event_witness :
    processEvent envNoCursor false stStale .mouseMoveRelative = (stStale, emptyOut) :=
  query_failure_drops_event envNoCursor false stStale (Or.inl rfl)

/-- C9: when the resolved root of the cursor handle equals the foreground
handle, no raise occurs, even though the raw cursor handle differs from the
foreground handle. -/
theorem root_equals_foreground_no_raise (env : Env) (cfg : Bool)
    (st : EngineState) (c f : Int) (rc : List (Int × Int)) (es : List Effect)
    (hcur : env.windowAtCursor = some c)
    (hfg : env.foregroundWindow = some f)
    (hcf : c ≠ f)
    (hroot : resolveRoot env st.root_hwnd_cache c = (rc, some f, es)) :
    (processEvent env cfg st .mouseMoveRelative).2.raised = none := by
  by_cases hm : st.is_mouse_down
  · simp [processEvent, processMove, hm, emptyOut]
  · simp [processEvent, processMove, hm, hcur, hfg, hcf, hroot, afterRoot]

theorem root_equals_foreground_no_raise_witness :
    (processEvent envChild false engineStart .mouseMoveRelative).2.raised = none :=
  root_equals_foreground_no_raise envChild false engineStart 9 10 [(9, 10)]
    [Effect.rootQuery 9] rfl rfl (by decide) (by decide)

/-- C10: in heuristic mode, when either handle's class name is unresolved,
the ignore-list loop is skipped for BOTH handles and eligibility is decided
by window style alone, so even a block-listed window is raised when the
other window's class query fails. -/
theorem class_failure_skips_ignore_check
    (env : Env) (st : EngineState) (c g r : Int) (rc : List (Int × Int))
    (es ee : List Effect) (cc : List (Int × String)) (crC fgC : Option String)
    (hmouse : st.is_mouse_down = false)
    (hcur : env.windowAtCursor = some c)
    (hfg : env.foregroundWindow = some g)
    (hcg : c ≠ g)
    (hroot : resolveRoot env st.root_hwnd_cache c = (rc, some r, es))
    (hrg : r ≠ g)
    (hpair : ¬ lookupA st.hwnd_pair_cache r = some g)
    (hcls : resolveClasses env st.class_cache r g = (cc, crC, fgC, ee))
    (hnone : crC = none ∨ fgC = none)
    (helig : lookupA st.eligibility_cache r = none)
    (hstyR : has_filtered_style env r = false)
    (hstyG : has_filtered_style env g = false) :
    heuristicEligibilities env r g crC fgC = (true, true) ∧
    (processMove env false st).2.raised = some r ∧
    lookupA (processMove env false st).1.eligibility_cache r = some true := by
  have hps : heuristicEligibilities env r g crC fgC = (true, true) := by
    rcases hnone with h | h
    · subst h
      cases fgC <;> simp [heuristicEligibilities, hstyR, hstyG]
    · subst h
      cases crC <;> simp [heuristicEligibilities, hstyR, hstyG]
  have hsteam : ¬(crC = some "Chrome_RenderWidgetHostHWND" ∧ fgC = some "SDL_app") := by
    rcases hnone with h | h <;> subst h <;> simp
  refine ⟨hps, ?_⟩
  simp only [processMove, hmouse, Bool.false_eq_true, if_false, hcur, hfg, hroot,
    afterRoot, classify, hcls, hps]
  rw [if_neg hcg, if_neg hrg, if_neg hpair, if_neg hsteam, helig]
  simp [finishRaise, lookupA_insertA, Ne.symm hrg]

theorem class_failure_skips_ignore_check_witness :
    classMatchesIgnore "Shell_TrayWnd" = true ∧
    (heuristicEligibilities envBlockedClassUnresolved 5 4
        (some "Shell_TrayWnd") none = (true, true) ∧
     (processMove envBlockedClassUnresolved false engineStart).2.raised = some 5 ∧
     lookupA (processMove envBlockedClassUnresolved false
        engineStart).1.eligibility_cache 5 = some true) :=
  ⟨by decide,
   class_failure_skips_ignore_check envBlockedClassUnresolved engineStart 3 4 5
     [(3, 5)] [Effect.rootQuery 3] [Effect.classQuery 5, Effect.classQuery 4]
     [(5, "Shell_TrayWnd")] (some "Shell_TrayWnd") none
     rfl rfl rfl (by decide) (by decide) (by decide) (by decide) (by decide)
     (Or.inr rfl) rfl (by decide) (by decide)⟩

end Masir
